import Mathlib

/-!
Verification development for the stockpiler repository.

We give a shallow embedding of the per-device backup procedures
(`stockpile_cisco_generic` and `stockpile_cisco_asa` from
`stockpiler/tasks/stockpile/stockpile_cisco.py`), the results object
(`stockpiler/tasks/stockpile/stockpile_results.py`), the CSV portion of the
run-completion processor (`ProcessStockpiles.task_completed` in
`stockpiler/processors/process_stockpiles.py`) and credential gathering
(`gather_credentials` in `stockpiler/__main__.py`).

External collaborators (tcp_ping, netmiko, the HTTP client, the filesystem and
git) are modelled at their boundary: their responses are inputs of the
procedures, and the side effects the procedures request from them are recorded
in an explicit effect list.
-/

namespace Stockpiler

/-- A `requests.Response` as seen through nornir's `http_method` task:
the HTTP-level success flag `response.ok` and the body `response.text`. -/
structure HttpResponse where
  ok : Bool
  text : String
deriving DecidableEq, Repr

/-- A netmiko task result as seen through nornir: the task-level `failed` flag
and the response text in `result`. -/
structure SshResponse where
  failed : Bool
  result : String
deriving DecidableEq, Repr

/-- Whether `needle` occurs as a contiguous sublist of `hay`: holds iff `needle` occurs as a contiguous
sublist of `hay`; mirrors Python's `needle in hay` on strings (viewed as
character lists). -/
def containsSublist (needle hay : List Char) : Bool :=
  match hay with
  | [] => needle.isEmpty
  | _ :: t => needle.isPrefixOf hay || containsSublist needle t

/-- Python `"command authorization failed" in text.lower()` (the repository
only ever matches this ASCII needle, on which per-character `Char.toLower`
agrees with Python's `str.lower`). -/
def isRejection (text : String) : Bool :=
  containsSublist "command authorization failed".data
    (text.data.map Char.toLower)

/-- The `StockpileResults` dict of `stockpile_results.py`, with the keys the
procedures in `stockpile_cisco.py` actually populate. -/
structure StockpileResults where
  name : String
  ip : String
  hostname : String
  http_management : Bool
  http_mgmt_port : Nat
  http_port_check_ok : Bool
  ssh_mgmt_port : Nat
  ssh_port_check_ok : Bool
  backup_successful : Bool
  save_config_successful : Bool
  http_used : Bool
  ssh_used : Bool
  last_backup_attempt : String
  last_successful_backup : Option String
  device_config : Option String
deriving DecidableEq, Repr

/-- Model of `StockpileResults.__init__`: the default of the `last_backup_attempt`
parameter is the expression `datetime.utcnow().isoformat()`, which Python
evaluates exactly once, when the class body is loaded (`classLoadClock`).  The
clock reading at construction time (`constructionClock`) is available to the
interpreter but is never consulted by `__init__`, which is why it does not
appear on the right-hand side. -/
def StockpileResults.make (classLoadClock constructionClock : String)
    (name ip hostname : String) (last_backup_attempt : Option String) :
    StockpileResults :=
  { name := name
    ip := ip
    hostname := hostname
    http_management := false
    http_mgmt_port := 443
    http_port_check_ok := false
    ssh_mgmt_port := 22
    ssh_port_check_ok := false
    backup_successful := false
    save_config_successful := false
    http_used := false
    ssh_used := false
    last_backup_attempt := last_backup_attempt.getD classLoadClock
    last_successful_backup := none
    device_config := none }

/-- Side effects a procedure requests from its collaborators, one constructor
per `task.run` call site (plus the file write). -/
inductive Effect where
  | probeHttpPort (port : Nat)
  | probeSshPort (port : Nat)
  | httpGet (cmd : String)
  | sshSendCommand (cmd : String)
  | sshSaveConfig
  | writeFile (filename : String) (content : String)
deriving DecidableEq, Repr

/-- Is this effect one of the two SSH command executions? -/
def Effect.isSsh : Effect → Bool
  | .sshSendCommand _ => true
  | .sshSaveConfig => true
  | _ => false

/-- Is this effect a file write? -/
def Effect.isWrite : Effect → Bool
  | .writeFile _ _ => true
  | _ => false

/-- Is this effect the HTTP management-port probe? -/
def Effect.isProbeHttp : Effect → Bool
  | .probeHttpPort _ => true
  | _ => false

/-- What a device procedure returns: the nornir `Result` (its `.result` dict
and `failed` flag) together with the effects it requested, in order. -/
structure RunOutput where
  info : StockpileResults
  failed : Bool
  effects : List Effect
deriving DecidableEq, Repr

/-- The default `backup_command` of both procedures (no caller overrides it). -/
def backup_command : String := "more system:running-config"

/-! ## The generic (SSH-only) procedure, `stockpile_cisco_generic` -/

/-- Inputs of one `stockpile_cisco_generic` run: the inventory fields it reads
and the responses of its collaborators. -/
structure GenericInputs where
  classLoadClock : String
  /-- Python `str(task.host)`, the inventory name of the device. -/
  host : String
  /-- Python `task.host.hostname`. -/
  hostIp : String
  /-- Python `task.host.get("device_name", task.host)`. -/
  device_name : Option String
  /-- Python `task.host.get("port", 22)`; the inventory can yield `None`. -/
  port : Option Nat
  /-- The `tcp_ping` result for the SSH management port. -/
  sshPingOk : Bool
  /-- The `netmiko_send_command` response for the backup command. -/
  backupResponse : SshResponse
  /-- The `netmiko_save_config` response. -/
  saveResponse : SshResponse
deriving DecidableEq, Repr

/-- Python `task.host.get("port", 22) or 22`: `None` and the falsy `0` both fall back
to 22. -/
def sshPortOf (port : Option Nat) : Nat :=
  match port with
  | none => 22
  | some 0 => 22
  | some p => p

/-- Construction of `stockpile_info` at the top of `stockpile_cisco_generic`
(all keys not passed keep their `StockpileResults.__init__` defaults). -/
def genericInit (inp : GenericInputs) : StockpileResults :=
  { name := inp.host ++ "_backup"
    ip := inp.hostIp
    hostname := inp.device_name.getD inp.host
    http_management := false
    http_mgmt_port := 443
    http_port_check_ok := false
    ssh_mgmt_port := sshPortOf inp.port
    ssh_port_check_ok := false
    backup_successful := false
    save_config_successful := false
    http_used := false
    ssh_used := false
    last_backup_attempt := inp.classLoadClock
    last_successful_backup := none
    device_config := none }

/-- Line 49: `stockpile_info["ssh_port_check_ok"] = task.run(tcp_ping, ...)`. -/
def genericProbeStep (inp : GenericInputs) (s : StockpileResults) :
    StockpileResults :=
  { s with ssh_port_check_ok := inp.sshPingOk }

/-- The backup block of `stockpile_cisco_generic`: on a non-failed,
non-rejected response record the config and set the flags. -/
def genericBackupStep (inp : GenericInputs) (s : StockpileResults) :
    StockpileResults :=
  if !inp.backupResponse.failed && !isRejection inp.backupResponse.result then
    { s with device_config := some inp.backupResponse.result
             backup_successful := true
             ssh_used := true }
  else s

/-- The save-config block of `stockpile_cisco_generic`. -/
def genericSaveStep (inp : GenericInputs) (s : StockpileResults) :
    StockpileResults :=
  if !inp.saveResponse.failed && !isRejection inp.saveResponse.result then
    { s with save_config_successful := true }
  else s

/-- The value of `stockpile_info` after line 51 (the SSH port probe). -/
def genS1 (inp : GenericInputs) : StockpileResults :=
  genericProbeStep inp (genericInit inp)

/-- The value of `stockpile_info` after the backup block (lines 66-71). -/
def genS2 (inp : GenericInputs) : StockpileResults :=
  genericBackupStep inp (genS1 inp)

/-- The value of `stockpile_info` after the save-config block (lines 74-80). -/
def genS3 (inp : GenericInputs) : StockpileResults :=
  genericSaveStep inp (genS2 inp)

/-- The procedure `stockpile_cisco_generic` (stockpile_cisco.py lines 26-89). -/
def stockpile_cisco_generic (inp : GenericInputs) : RunOutput :=
  if !(genS1 inp).ssh_port_check_ok then
    { info := genS1 inp
      failed := !(genS1 inp).backup_successful
      effects := [.probeSshPort (genericInit inp).ssh_mgmt_port] }
  else
    { info := genS3 inp
      failed := !(genS3 inp).backup_successful
      effects :=
        [.probeSshPort (genericInit inp).ssh_mgmt_port,
          .sshSendCommand backup_command, .sshSaveConfig] ++
        (if (genS3 inp).backup_successful then
          [.writeFile (inp.host ++ ".txt") ((genS3 inp).device_config.getD "")]
        else []) }

/-- The successive values of `stockpile_info` during one
`stockpile_cisco_generic` run, one entry per mutation point. -/
def genericTrace (inp : GenericInputs) : List StockpileResults :=
  if !(genS1 inp).ssh_port_check_ok then [genericInit inp, genS1 inp]
  else [genericInit inp, genS1 inp, genS2 inp, genS3 inp]

/-! ## The dual-transport (ASA) procedure, `stockpile_cisco_asa` -/

/-- Inputs of one `stockpile_cisco_asa` run: the inventory fields it reads and
the responses of its collaborators. -/
structure AsaInputs where
  classLoadClock : String
  /-- Python `str(task.host)`, the inventory name of the device. -/
  host : String
  /-- Python `task.host.hostname`. -/
  hostIp : String
  /-- Python `task.host.get("device_name", task.host)`. -/
  device_name : Option String
  /-- Python `task.host.get("http_management", False)`. -/
  http_management : Bool
  /-- Python `task.host.get("http_mgmt_port", 8443)`. -/
  http_mgmt_port : Nat
  /-- Python `task.host.get("port", 22)`; the inventory can yield `None`. -/
  port : Option Nat
  /-- Python `proxies is not None` (a SOCKS proxy dict was passed in). -/
  proxiesConfigured : Bool
  /-- The `tcp_ping` result for the HTTP management port, were it probed. -/
  httpPingOk : Bool
  /-- The `tcp_ping` result for the SSH management port. -/
  sshPingOk : Bool
  /-- The `http_method` response for the GET of the backup command. -/
  httpBackupResponse : HttpResponse
  /-- The `http_method` response for the GET of `write mem`. -/
  httpWrMemResponse : HttpResponse
  /-- The `netmiko_send_command` response for the backup command. -/
  sshBackupResponse : SshResponse
  /-- The `netmiko_save_config` response. -/
  sshWrMemResponse : SshResponse
deriving DecidableEq, Repr

/-- Construction of `stockpile_info` at the top of `stockpile_cisco_asa`. -/
def asaInit (inp : AsaInputs) : StockpileResults :=
  { name := inp.host ++ "_backup"
    ip := inp.hostIp
    hostname := inp.device_name.getD inp.host
    http_management := inp.http_management
    http_mgmt_port := inp.http_mgmt_port
    http_port_check_ok := false
    ssh_mgmt_port := sshPortOf inp.port
    ssh_port_check_ok := false
    backup_successful := false
    save_config_successful := false
    http_used := false
    ssh_used := false
    last_backup_attempt := inp.classLoadClock
    last_successful_backup := none
    device_config := none }

/-- Lines 120-125: with HTTP management on and a proxy configured the port
check is skipped and assumed ok; with HTTP management on and no proxy the port
is probed; with HTTP management off the key keeps its default `False`. -/
def asaHttpProbeStep (inp : AsaInputs) (s : StockpileResults) :
    StockpileResults :=
  if s.http_management && inp.proxiesConfigured then
    { s with http_port_check_ok := true }
  else if s.http_management then
    { s with http_port_check_ok := inp.httpPingOk }
  else s

/-- Lines 128-130: the SSH port is probed unconditionally. -/
def asaSshProbeStep (inp : AsaInputs) (s : StockpileResults) :
    StockpileResults :=
  { s with ssh_port_check_ok := inp.sshPingOk }

/-- Lines 169-177: the HTTP read-config block. -/
def asaHttpBackupStep (inp : AsaInputs) (s : StockpileResults) :
    StockpileResults :=
  if inp.httpBackupResponse.ok && !isRejection inp.httpBackupResponse.text then
    { s with device_config := some inp.httpBackupResponse.text
             backup_successful := true
             http_used := true }
  else s

/-- Lines 180-186: the HTTP `write mem` block.  Faithful to the source: the
condition tests `wr_mem_results[0].response.ok` but the rejection substring is
looked for in `backup_results[0].response.text` — the read-config response —
not in the `write mem` response. -/
def asaHttpWrMemStep (inp : AsaInputs) (s : StockpileResults) :
    StockpileResults :=
  if inp.httpWrMemResponse.ok && !isRejection inp.httpBackupResponse.text then
    { s with save_config_successful := true }
  else s

/-- Lines 193-198: the SSH read-config block (fallback). -/
def asaSshBackupStep (inp : AsaInputs) (s : StockpileResults) :
    StockpileResults :=
  if !inp.sshBackupResponse.failed &&
      !isRejection inp.sshBackupResponse.result then
    { s with device_config := some inp.sshBackupResponse.result
             backup_successful := true
             ssh_used := true }
  else s

/-- Lines 201-204: the SSH save-config block. -/
def asaSshWrMemStep (inp : AsaInputs) (s : StockpileResults) :
    StockpileResults :=
  if !inp.sshWrMemResponse.failed &&
      !isRejection inp.sshWrMemResponse.result then
    { s with save_config_successful := true }
  else s

/-- The value of `stockpile_info` after the HTTP port check (lines 120-125). -/
def asaS1 (inp : AsaInputs) : StockpileResults :=
  asaHttpProbeStep inp (asaInit inp)

/-- The value of `stockpile_info` after the SSH port check (lines 128-130). -/
def asaS2 (inp : AsaInputs) : StockpileResults :=
  asaSshProbeStep inp (asaS1 inp)

/-- The early-return guard of line 133: neither port reachable. -/
def asaEarlyReturn (inp : AsaInputs) : Bool :=
  !(asaS2 inp).http_port_check_ok && !(asaS2 inp).ssh_port_check_ok

/-- The value of `stockpile_info` after the HTTP read-config block (guarded by line 145). -/
def asaS3 (inp : AsaInputs) : StockpileResults :=
  if (asaS2 inp).http_port_check_ok then asaHttpBackupStep inp (asaS2 inp)
  else asaS2 inp

/-- The value of `stockpile_info` after the HTTP `write mem` block (same guard). -/
def asaS4 (inp : AsaInputs) : StockpileResults :=
  if (asaS2 inp).http_port_check_ok then asaHttpWrMemStep inp (asaS3 inp)
  else asaS3 inp

/-- The SSH-fallback guard of line 189, evaluated on the state after the HTTP
attempt. -/
def asaSshTaken (inp : AsaInputs) : Bool :=
  !(asaS4 inp).backup_successful && (asaS4 inp).ssh_port_check_ok

/-- The value of `stockpile_info` after the SSH read-config block. -/
def asaS5 (inp : AsaInputs) : StockpileResults :=
  if asaSshTaken inp then asaSshBackupStep inp (asaS4 inp) else asaS4 inp

/-- The value of `stockpile_info` after the SSH save-config block. -/
def asaS6 (inp : AsaInputs) : StockpileResults :=
  if asaSshTaken inp then asaSshWrMemStep inp (asaS5 inp) else asaS5 inp

/-- The two `tcp_ping` calls (the HTTP one only when HTTP management is on and
no proxy is configured). -/
def asaProbeEffects (inp : AsaInputs) : List Effect :=
  (if inp.http_management && !inp.proxiesConfigured then
    [Effect.probeHttpPort inp.http_mgmt_port]
  else []) ++ [Effect.probeSshPort (asaInit inp).ssh_mgmt_port]

/-- The two HTTP GETs of the HTTP branch (lines 169 and 180). -/
def asaHttpEffects (inp : AsaInputs) : List Effect :=
  if (asaS2 inp).http_port_check_ok then
    [Effect.httpGet backup_command, Effect.httpGet "write mem"]
  else []

/-- The two SSH commands of the fallback branch (lines 193 and 201). -/
def asaSshEffects (inp : AsaInputs) : List Effect :=
  if asaSshTaken inp then
    [Effect.sshSendCommand backup_command, Effect.sshSaveConfig]
  else []

/-- The file write of lines 207-209, only on a successful backup. -/
def asaWriteEffects (inp : AsaInputs) : List Effect :=
  if (asaS6 inp).backup_successful then
    [Effect.writeFile (inp.host ++ ".txt") ((asaS6 inp).device_config.getD "")]
  else []

/-- The procedure `stockpile_cisco_asa` (stockpile_cisco.py lines 92-214). -/
def stockpile_cisco_asa (inp : AsaInputs) : RunOutput :=
  if asaEarlyReturn inp then
    { info := asaS2 inp
      failed := !(asaS2 inp).backup_successful
      effects := asaProbeEffects inp }
  else
    { info := asaS6 inp
      failed := !(asaS6 inp).backup_successful
      effects := asaProbeEffects inp ++ asaHttpEffects inp ++
        asaSshEffects inp ++ asaWriteEffects inp }

/-- The successive values of `stockpile_info` during one `stockpile_cisco_asa`
run, one entry per mutation point. -/
def asaTrace (inp : AsaInputs) : List StockpileResults :=
  if asaEarlyReturn inp then [asaInit inp, asaS1 inp, asaS2 inp]
  else [asaInit inp, asaS1 inp, asaS2 inp, asaS3 inp, asaS4 inp, asaS5 inp,
        asaS6 inp]

/-- The value `stockpile_info["http_port_check_ok"]` has after the probing
steps: `http_management and (proxies configured or the probe succeeded)`. -/
def asaHttpCheckOk (inp : AsaInputs) : Bool :=
  inp.http_management && (inp.proxiesConfigured || inp.httpPingOk)

/-- The HTTP read-config attempt is made and succeeds: the HTTP port check was
ok, the GET reported HTTP success, and its text is not a rejection. -/
def asaHttpSuccess (inp : AsaInputs) : Bool :=
  asaHttpCheckOk inp && inp.httpBackupResponse.ok &&
    !isRejection inp.httpBackupResponse.text

/-- The condition under which the HTTP branch sets `save_config_successful`:
the branch ran, the `write mem` GET reported HTTP success, and — as the source
has it — the *read-config* response text is not a rejection. -/
def asaHttpSaveSuccess (inp : AsaInputs) : Bool :=
  asaHttpCheckOk inp && inp.httpWrMemResponse.ok &&
    !isRejection inp.httpBackupResponse.text

/-- The SSH fallback read succeeds: the fallback ran (HTTP produced no backup,
SSH port ok), the command did not fail, and its text is not a rejection. -/
def asaSshSuccess (inp : AsaInputs) : Bool :=
  !asaHttpSuccess inp && inp.sshPingOk && !inp.sshBackupResponse.failed &&
    !isRejection inp.sshBackupResponse.result

/-- The SSH fallback save-config succeeds. -/
def asaSshSaveSuccess (inp : AsaInputs) : Bool :=
  !asaHttpSuccess inp && inp.sshPingOk && !inp.sshWrMemResponse.failed &&
    !isRejection inp.sshWrMemResponse.result

/-! ### Characterization of the generic procedure -/

/-- The generic backup command came back neither failed nor rejected. -/
def genericBackupOk (inp : GenericInputs) : Bool :=
  !inp.backupResponse.failed && !isRejection inp.backupResponse.result

/-- The generic save-config command came back neither failed nor rejected. -/
def genericSaveOk (inp : GenericInputs) : Bool :=
  !inp.saveResponse.failed && !isRejection inp.saveResponse.result

/-! ## Run-completion report: the CSV part of `ProcessStockpiles.task_completed` -/

/-- The `.result` attribute of a device's first nornir `Result`: either the
dict-shaped `StockpileResults` (an ordered key/value list — Python dicts keep
insertion order) or a non-dict value such as an exception captured by the
executor. -/
inductive DeviceResult where
  | dict (items : List (String × String))
  | nonDict (descr : String)
deriving DecidableEq, Repr

/-- Python `isinstance(result[host][0].result, dict)`. -/
def DeviceResult.isDict : DeviceResult → Bool
  | .dict _ => true
  | .nonDict _ => false

/-- Line 68: the fieldnames are the given outcome's keys with `device_config`
removed. -/
def fieldnamesOf (items : List (String × String)) : List String :=
  (items.map Prod.fst).filter (fun k => k != "device_config")

/-- Line 77: the row written for one dict-shaped outcome — its items with
`device_config` removed. -/
def rowOf (items : List (String × String)) : List (String × String) :=
  items.filter (fun kv => kv.1 != "device_config")

/-- Lines 73-77 of `process_stockpiles.py`: one `writer.writerow` per device
whose result is a dict, non-dicts skipped.  `csv.DictWriter` is constructed
with the default `extrasaction`, so a row holding a key that is not among the
fieldnames raises `ValueError`, modelled by `none`. -/
def writeRows (fieldnames : List String) :
    List (String × DeviceResult) → Option (List (List (String × String)))
  | [] => some []
  | (_, .nonDict _) :: rest => writeRows fieldnames rest
  | (_, .dict items) :: rest =>
    let row := rowOf items
    if row.all (fun kv => fieldnames.contains kv.1) then
      (writeRows fieldnames rest).map (fun rs => row :: rs)
    else none

/-- The CSV portion of `ProcessStockpiles.task_completed` (lines 65-77),
taking the aggregated result as an insertion-ordered list of
(host, first result) pairs and producing the fieldnames and the written rows.
`none` models an exception escaping `task_completed`:
`next(result[x] for x in result)` raises `StopIteration` on an empty
aggregate, `.result.keys()` raises `AttributeError` when the first host's
result is not a dict, and `writerow` can raise `ValueError` (see
`writeRows`). -/
def task_completed (results : List (String × DeviceResult)) :
    Option (List String × List (List (String × String))) :=
  match results with
  | [] => none
  | (_, .nonDict _) :: _ => none
  | (h, .dict items) :: rest =>
    (writeRows (fieldnamesOf items) ((h, .dict items) :: rest)).map
      (fun rows => (fieldnamesOf items, rows))

/-! ## Credential gathering: `gather_credentials` in `__main__.py` -/

/-- What `gather_credentials` observes about the credential file through
`pathlib`: existence, owner, the last three octal digits of `st_mode`
(`oct(credential_path.stat()[0])[-3:]`), and — only if it gets as far as
reading it — the decoded payload, already split on whitespace into entries
(`base64.b64decode(creds_b64).decode().split()`). -/
structure CredFile where
  isFile : Bool
  owner : String
  permOwner : Nat
  permGroup : Nat
  permOther : Nat
  entries : List String
deriving DecidableEq, Repr

/-- The `OSError`s (and the possible `IndexError`) `gather_credentials` can
raise. -/
inductive CredError where
  | noCredentials
  | fileNotFound
  | fileNotOwned
  | filePermissions
  | fileFormat
  | entryNoColon
deriving DecidableEq, Repr

/-- Everything after the first `':'` of a character list, or `none` when
there is no `':'`. -/
def afterFirstColonChars : List Char → Option (List Char)
  | [] => none
  | c :: rest => if c = ':' then some rest else afterFirstColonChars rest

/-- Python `entry.split(":", maxsplit=1)[1]`: everything after the first colon, or
`none` (an `IndexError`) when the entry holds no colon. -/
def afterFirstColon (entry : String) : Option String :=
  (afterFirstColonChars entry.data).map String.mk

/-- The environment and interactive inputs `gather_credentials` can consult:
the three `STOCKPILER_*` environment variables and what `input()`/`getpass()`
would return. -/
structure CredEnv where
  envUser : Option String
  envPw : Option String
  envEnable : Option String
  promptUser : String
  promptPw : String
deriving DecidableEq, Repr

/-- The function `gather_credentials` (`__main__.py` lines 227-280).  The first component
is the returned `(username, password, enable)` triple — components may be
absent when they come from unset environment variables — or the raised error;
the second component records whether `credential_path.read_text()` was ever
executed. -/
def gather_credentials (env : CredEnv) (credential_prompt : Bool)
    (credential_file : Option CredFile) (invokingUser : String) :
    Except CredError (Option String × Option String × Option String) × Bool :=
  let username := env.envUser
  let password := env.envPw
  let enable := env.envEnable
  if username.isNone && password.isNone && !credential_prompt &&
      credential_file.isNone then
    (.error .noCredentials, false)
  else if credential_prompt then
    (.ok (some env.promptUser, some env.promptPw, some env.promptPw), false)
  else
    match credential_file with
    | none => (.ok (username, password, enable), false)
    | some f =>
      if !f.isFile then (.error .fileNotFound, false)
      else if f.owner != invokingUser then (.error .fileNotOwned, false)
      else if f.permGroup != 0 || f.permOther != 0 then
        (.error .filePermissions, false)
      else
        match f.entries with
        | [a, b, c] =>
          match afterFirstColon a, afterFirstColon b, afterFirstColon c with
          | some u, some p, some e => (.ok (some u, some p, some e), true)
          | _, _, _ => (.error .entryNoColon, true)
        | [a, b] =>
          match afterFirstColon a, afterFirstColon b with
          | some u, some p => (.ok (some u, some p, some p), true)
          | _, _ => (.error .entryNoColon, true)
        | _ => (.error .fileFormat, true)

/-! ## Remaining definitions used by the theorems -/

/-- Per-field boolean monotonicity between two outcome states: every flag that
is true stays true. -/
def boolMono (s t : StockpileResults) : Prop :=
  (s.http_port_check_ok = true → t.http_port_check_ok = true) ∧
  (s.ssh_port_check_ok = true → t.ssh_port_check_ok = true) ∧
  (s.backup_successful = true → t.backup_successful = true) ∧
  (s.save_config_successful = true → t.save_config_successful = true) ∧
  (s.http_used = true → t.http_used = true) ∧
  (s.ssh_used = true → t.ssh_used = true)

/-- Every dict-shaped result in the aggregate, once `device_config` is
filtered out, only holds keys among the given fieldnames (the condition under
which `csv.DictWriter.writerow` does not raise `ValueError`). -/
def rowsFit (fieldnames : List String)
    (l : List (String × DeviceResult)) : Bool :=
  l.all fun hr =>
    match hr.2 with
    | .dict its => (rowOf its).all fun kv => fieldnames.contains kv.1
    | .nonDict _ => true

/-- The row produced for one device: its items without `device_config` for a
dict result, nothing for a non-dict result. -/
def rowOfResult (hr : String × DeviceResult) : Option (List (String × String)) :=
  match hr.2 with
  | .dict its => some (rowOf its)
  | .nonDict _ => none

/-! ### Concrete inputs used in the closed theorems -/

/-- An ASA run where the HTTP `write mem` request itself comes back with
"Command Authorization Failed" while the read-config response is clean. -/
def c1AsaInput : AsaInputs :=
  { classLoadClock := "2020-01-25T13:25:53"
    host := "asa1"
    hostIp := "192.0.2.10"
    device_name := none
    http_management := true
    http_mgmt_port := 8443
    port := some 22
    proxiesConfigured := false
    httpPingOk := true
    sshPingOk := false
    httpBackupResponse := { ok := true, text := "hostname asa1" }
    httpWrMemResponse := { ok := true, text := "Command Authorization Failed" }
    sshBackupResponse := { failed := true, result := "" }
    sshWrMemResponse := { failed := true, result := "" } }

/-- A generic run whose transport call succeeds but returns an empty string. -/
def c2GenInput : GenericInputs :=
  { classLoadClock := "2020-01-25T13:25:53"
    host := "r1"
    hostIp := "192.0.2.2"
    device_name := none
    port := some 22
    sshPingOk := true
    backupResponse := { failed := false, result := "" }
    saveResponse := { failed := false, result := "[OK]" } }

/-- An ASA run whose HTTP read-config succeeds while SSH would also have been
available and successful. -/
def c3AsaInput : AsaInputs :=
  { classLoadClock := "2020-01-25T13:25:53"
    host := "asa2"
    hostIp := "192.0.2.11"
    device_name := none
    http_management := true
    http_mgmt_port := 8443
    port := some 22
    proxiesConfigured := false
    httpPingOk := true
    sshPingOk := true
    httpBackupResponse := { ok := true, text := "hostname asa2" }
    httpWrMemResponse := { ok := true, text := "[OK]" }
    sshBackupResponse := { failed := false, result := "hostname asa2" }
    sshWrMemResponse := { failed := false, result := "[OK]" } }

/-- A fully successful generic run (witness input for the mutual-exclusion
part of the transport claims). -/
def c3GenInput : GenericInputs :=
  { classLoadClock := "2020-01-25T13:25:53"
    host := "R2"
    hostIp := "192.0.2.4"
    device_name := none
    port := some 22
    sshPingOk := true
    backupResponse := { failed := false, result := "hostname R2" }
    saveResponse := { failed := false, result := "[OK]" } }

/-- An ASA run with HTTP management off and both ports unreachable. -/
def c4AsaInput : AsaInputs :=
  { classLoadClock := "2020-01-25T13:25:53"
    host := "asa3"
    hostIp := "192.0.2.12"
    device_name := none
    http_management := false
    http_mgmt_port := 8443
    port := some 22
    proxiesConfigured := false
    httpPingOk := false
    sshPingOk := false
    httpBackupResponse := { ok := false, text := "" }
    httpWrMemResponse := { ok := false, text := "" }
    sshBackupResponse := { failed := true, result := "" }
    sshWrMemResponse := { failed := true, result := "" } }

/-- A fully successful generic run. -/
def c5GenInput : GenericInputs :=
  { classLoadClock := "2020-01-25T13:25:53"
    host := "R1"
    hostIp := "192.0.2.3"
    device_name := none
    port := some 22
    sshPingOk := true
    backupResponse := { failed := false, result := "hostname R1" }
    saveResponse := { failed := false, result := "[OK]" } }

/-- An aggregate whose first (insertion-order) device result is an exception
value while the second is a dict-shaped outcome. -/
def c6Aggregate : List (String × DeviceResult) :=
  [("fw2", .nonDict "ConnectionException"),
   ("fw1", .dict [("name", "fw1_backup"), ("ip", "192.0.2.7"),
                  ("backup_successful", "True"),
                  ("device_config", "hostname fw1")])]

/-- An aggregate whose first result is dict-shaped; holds a failed dict row
and an exception value after it. -/
def c6GoodAggregate : List (String × DeviceResult) :=
  [("fw1", .dict [("ip", "192.0.2.7"), ("backup_successful", "True"),
                  ("device_config", "hostname fw1")]),
   ("fw2", .nonDict "ConnectionException"),
   ("fw3", .dict [("ip", "192.0.2.8"), ("backup_successful", "False"),
                  ("device_config", "")])]

/-- An ASA run with HTTP management on and a SOCKS proxy configured. -/
def c7AsaInput : AsaInputs :=
  { classLoadClock := "2020-01-25T13:25:53"
    host := "asa4"
    hostIp := "192.0.2.13"
    device_name := none
    http_management := true
    http_mgmt_port := 8443
    port := some 22
    proxiesConfigured := true
    httpPingOk := false
    sshPingOk := false
    httpBackupResponse := { ok := true, text := "hostname asa4" }
    httpWrMemResponse := { ok := true, text := "[OK]" }
    sshBackupResponse := { failed := true, result := "" }
    sshWrMemResponse := { failed := true, result := "" } }

/-- An environment with none of the `STOCKPILER_*` variables set. -/
def c8Env : CredEnv :=
  { envUser := none, envPw := none, envEnable := none,
    promptUser := "", promptPw := "" }

/-- A well-permissioned credential file holding two entries. -/
def c8File2 : CredFile :=
  { isFile := true, owner := "backup", permOwner := 6, permGroup := 0,
    permOther := 0,
    entries := ["STOCKPILER_USER:test_user", "STOCKPILER_PW:test_pw"] }

/-- A well-permissioned credential file holding three entries. -/
def c8File3 : CredFile :=
  { isFile := true, owner := "backup", permOwner := 6, permGroup := 0,
    permOther := 0,
    entries := ["STOCKPILER_USER:test_user", "STOCKPILER_PW:test_pw",
                "STOCKPILER_ENABLE:test_en"] }

/-- A well-permissioned credential file holding a single entry. -/
def c8File1 : CredFile :=
  { isFile := true, owner := "backup", permOwner := 6, permGroup := 0,
    permOther := 0, entries := ["STOCKPILER_USER:test_user"] }

/-- A credential file owned by somebody else. -/
def c8FileWrongOwner : CredFile :=
  { isFile := true, owner := "root", permOwner := 6, permGroup := 0,
    permOther := 0,
    entries := ["STOCKPILER_USER:test_user", "STOCKPILER_PW:test_pw"] }

/-- A credential file with group-read permission. -/
def c8FileLoosePerms : CredFile :=
  { isFile := true, owner := "backup", permOwner := 6, permGroup := 4,
    permOther := 0,
    entries := ["STOCKPILER_USER:test_user", "STOCKPILER_PW:test_pw"] }

/-! ## Characterization lemmas -/

theorem asaS1_eq (inp : AsaInputs) :
    asaS1 inp = { asaInit inp with http_port_check_ok := asaHttpCheckOk inp } := by
  unfold asaS1 asaHttpProbeStep asaHttpCheckOk asaInit
  cases hm : inp.http_management <;> cases px : inp.proxiesConfigured <;> simp

theorem asaS2_eq (inp : AsaInputs) :
    asaS2 inp = { asaInit inp with
      http_port_check_ok := asaHttpCheckOk inp
      ssh_port_check_ok := inp.sshPingOk } := by
  unfold asaS2 asaSshProbeStep
  rw [asaS1_eq]

theorem asaS3_eq (inp : AsaInputs) :
    asaS3 inp = { asaInit inp with
      http_port_check_ok := asaHttpCheckOk inp
      ssh_port_check_ok := inp.sshPingOk
      backup_successful := asaHttpSuccess inp
      http_used := asaHttpSuccess inp
      device_config :=
        if asaHttpSuccess inp then some inp.httpBackupResponse.text
        else none } := by
  unfold asaS3 asaHttpBackupStep asaHttpSuccess
  rw [asaS2_eq]
  cases hc : asaHttpCheckOk inp <;> cases hok : inp.httpBackupResponse.ok <;>
    cases hr : isRejection inp.httpBackupResponse.text <;> simp [asaInit]

theorem asaS4_eq (inp : AsaInputs) :
    asaS4 inp = { asaInit inp with
      http_port_check_ok := asaHttpCheckOk inp
      ssh_port_check_ok := inp.sshPingOk
      backup_successful := asaHttpSuccess inp
      http_used := asaHttpSuccess inp
      save_config_successful := asaHttpSaveSuccess inp
      device_config :=
        if asaHttpSuccess inp then some inp.httpBackupResponse.text
        else none } := by
  unfold asaS4 asaHttpWrMemStep asaHttpSaveSuccess
  rw [asaS3_eq, asaS2_eq]
  cases hc : asaHttpCheckOk inp <;> cases hok : inp.httpWrMemResponse.ok <;>
    cases hr : isRejection inp.httpBackupResponse.text <;> simp [asaInit]

theorem asaSshTaken_eq (inp : AsaInputs) :
    asaSshTaken inp = (!asaHttpSuccess inp && inp.sshPingOk) := by
  unfold asaSshTaken
  rw [asaS4_eq]

theorem asaS5_eq (inp : AsaInputs) :
    asaS5 inp = { asaInit inp with
      http_port_check_ok := asaHttpCheckOk inp
      ssh_port_check_ok := inp.sshPingOk
      backup_successful := asaHttpSuccess inp || asaSshSuccess inp
      http_used := asaHttpSuccess inp
      ssh_used := asaSshSuccess inp
      save_config_successful := asaHttpSaveSuccess inp
      device_config :=
        if asaSshSuccess inp then some inp.sshBackupResponse.result
        else if asaHttpSuccess inp then some inp.httpBackupResponse.text
        else none } := by
  unfold asaS5 asaSshBackupStep asaSshSuccess
  rw [asaSshTaken_eq, asaS4_eq]
  cases hs : asaHttpSuccess inp <;> cases hping : inp.sshPingOk <;>
    cases hf : inp.sshBackupResponse.failed <;>
    cases hr : isRejection inp.sshBackupResponse.result <;> simp [asaInit]

theorem asaS6_eq (inp : AsaInputs) :
    asaS6 inp = { asaInit inp with
      http_port_check_ok := asaHttpCheckOk inp
      ssh_port_check_ok := inp.sshPingOk
      backup_successful := asaHttpSuccess inp || asaSshSuccess inp
      http_used := asaHttpSuccess inp
      ssh_used := asaSshSuccess inp
      save_config_successful := asaHttpSaveSuccess inp || asaSshSaveSuccess inp
      device_config :=
        if asaSshSuccess inp then some inp.sshBackupResponse.result
        else if asaHttpSuccess inp then some inp.httpBackupResponse.text
        else none } := by
  unfold asaS6 asaSshWrMemStep asaSshSaveSuccess
  rw [asaSshTaken_eq, asaS5_eq]
  cases hs : asaHttpSuccess inp <;> cases hping : inp.sshPingOk <;>
    cases hf : inp.sshWrMemResponse.failed <;>
    cases hr : isRejection inp.sshWrMemResponse.result <;> simp [asaInit]

theorem asaEarlyReturn_eq (inp : AsaInputs) :
    asaEarlyReturn inp = (!asaHttpCheckOk inp && !inp.sshPingOk) := by
  unfold asaEarlyReturn
  rw [asaS2_eq]

/-- On the early-return path nothing after the probes could run, so the state
returned there coincides with the final state of the long path. -/
theorem asa_early_s6 (inp : AsaInputs) (h : asaEarlyReturn inp = true) :
    asaS6 inp = asaS2 inp := by
  rw [asaEarlyReturn_eq] at h
  have hc : asaHttpCheckOk inp = false := by
    cases hx : asaHttpCheckOk inp <;> simp_all
  have hping : inp.sshPingOk = false := by
    cases hx : inp.sshPingOk <;> simp_all
  rw [asaS6_eq, asaS2_eq]
  simp [asaHttpSuccess, asaSshSuccess, asaHttpSaveSuccess, asaSshSaveSuccess,
    asaInit, hc, hping]

theorem asa_info_eq (inp : AsaInputs) :
    (stockpile_cisco_asa inp).info = asaS6 inp := by
  unfold stockpile_cisco_asa
  split
  · next hearly => rw [asa_early_s6 inp hearly]
  · rfl

theorem asa_failed_eq (inp : AsaInputs) :
    (stockpile_cisco_asa inp).failed = !(asaS6 inp).backup_successful := by
  unfold stockpile_cisco_asa
  split
  · next hearly => rw [asa_early_s6 inp hearly]
  · rfl

theorem genS1_eq (inp : GenericInputs) :
    genS1 inp = { genericInit inp with ssh_port_check_ok := inp.sshPingOk } :=
  rfl

theorem genS2_eq (inp : GenericInputs) :
    genS2 inp = { genericInit inp with
      ssh_port_check_ok := inp.sshPingOk
      backup_successful := genericBackupOk inp
      ssh_used := genericBackupOk inp
      device_config :=
        if genericBackupOk inp then some inp.backupResponse.result
        else none } := by
  unfold genS2 genericBackupStep genericBackupOk
  rw [genS1_eq]
  cases hf : inp.backupResponse.failed <;>
    cases hr : isRejection inp.backupResponse.result <;> simp [genericInit]

theorem genS3_eq (inp : GenericInputs) :
    genS3 inp = { genericInit inp with
      ssh_port_check_ok := inp.sshPingOk
      backup_successful := genericBackupOk inp
      ssh_used := genericBackupOk inp
      save_config_successful := genericSaveOk inp
      device_config :=
        if genericBackupOk inp then some inp.backupResponse.result
        else none } := by
  unfold genS3 genericSaveStep genericSaveOk
  rw [genS2_eq]
  cases hf : inp.saveResponse.failed <;>
    cases hr : isRejection inp.saveResponse.result <;> simp [genericInit]

theorem generic_info_eq (inp : GenericInputs) :
    (stockpile_cisco_generic inp).info =
      if inp.sshPingOk then genS3 inp else genS1 inp := by
  unfold stockpile_cisco_generic
  have hcheck : (genS1 inp).ssh_port_check_ok = inp.sshPingOk := rfl
  cases hping : inp.sshPingOk <;> simp [hcheck, hping]

theorem generic_backup_eq (inp : GenericInputs) :
    (stockpile_cisco_generic inp).info.backup_successful =
      (inp.sshPingOk && genericBackupOk inp) := by
  rw [generic_info_eq]
  cases hping : inp.sshPingOk <;> simp [genS3_eq, genS1_eq, genericInit]

/-! ### Effect-list lemmas -/

theorem asa_effects_eq (a : AsaInputs) :
    (stockpile_cisco_asa a).effects =
      if asaEarlyReturn a then asaProbeEffects a
      else asaProbeEffects a ++ asaHttpEffects a ++ asaSshEffects a ++
        asaWriteEffects a := by
  unfold stockpile_cisco_asa
  split <;> simp_all

theorem probeEffects_any_probeHttp (a : AsaInputs) :
    ((asaProbeEffects a).any fun e => e.isProbeHttp) =
      (a.http_management && !a.proxiesConfigured) := by
  unfold asaProbeEffects
  split <;> simp_all [Effect.isProbeHttp]

theorem httpEffects_any_probeHttp (a : AsaInputs) :
    ((asaHttpEffects a).any fun e => e.isProbeHttp) = false := by
  unfold asaHttpEffects
  split <;> simp [Effect.isProbeHttp]

theorem sshEffects_any_probeHttp (a : AsaInputs) :
    ((asaSshEffects a).any fun e => e.isProbeHttp) = false := by
  unfold asaSshEffects
  split <;> simp [Effect.isProbeHttp]

theorem writeEffects_any_probeHttp (a : AsaInputs) :
    ((asaWriteEffects a).any fun e => e.isProbeHttp) = false := by
  unfold asaWriteEffects
  split <;> simp [Effect.isProbeHttp]

theorem probeEffects_any_ssh (a : AsaInputs) :
    ((asaProbeEffects a).any fun e => e.isSsh) = false := by
  unfold asaProbeEffects
  split <;> simp [Effect.isSsh]

theorem httpEffects_any_ssh (a : AsaInputs) :
    ((asaHttpEffects a).any fun e => e.isSsh) = false := by
  unfold asaHttpEffects
  split <;> simp [Effect.isSsh]

theorem sshEffects_any_ssh (a : AsaInputs) :
    ((asaSshEffects a).any fun e => e.isSsh) = asaSshTaken a := by
  unfold asaSshEffects
  split <;> simp_all [Effect.isSsh]

theorem writeEffects_any_ssh (a : AsaInputs) :
    ((asaWriteEffects a).any fun e => e.isSsh) = false := by
  unfold asaWriteEffects
  split <;> simp [Effect.isSsh]

theorem probeEffects_any_write (a : AsaInputs) :
    ((asaProbeEffects a).any fun e => e.isWrite) = false := by
  unfold asaProbeEffects
  split <;> simp [Effect.isWrite]

theorem httpEffects_any_write (a : AsaInputs) :
    ((asaHttpEffects a).any fun e => e.isWrite) = false := by
  unfold asaHttpEffects
  split <;> simp [Effect.isWrite]

theorem sshEffects_any_write (a : AsaInputs) :
    ((asaSshEffects a).any fun e => e.isWrite) = false := by
  unfold asaSshEffects
  split <;> simp [Effect.isWrite]

theorem writeEffects_any_write (a : AsaInputs) :
    ((asaWriteEffects a).any fun e => e.isWrite) =
      (asaS6 a).backup_successful := by
  unfold asaWriteEffects
  split <;> simp_all [Effect.isWrite]

theorem asa_any_probeHttp (a : AsaInputs) :
    ((stockpile_cisco_asa a).effects.any fun e => e.isProbeHttp) =
      (a.http_management && !a.proxiesConfigured) := by
  rw [asa_effects_eq]
  split <;>
    simp [List.any_append, probeEffects_any_probeHttp,
      httpEffects_any_probeHttp, sshEffects_any_probeHttp,
      writeEffects_any_probeHttp]

theorem asa_any_ssh (a : AsaInputs) :
    ((stockpile_cisco_asa a).effects.any fun e => e.isSsh) =
      (!asaEarlyReturn a && asaSshTaken a) := by
  rw [asa_effects_eq]
  split <;>
    simp_all [List.any_append, probeEffects_any_ssh, httpEffects_any_ssh,
      sshEffects_any_ssh, writeEffects_any_ssh]

theorem asa_any_write (a : AsaInputs) :
    ((stockpile_cisco_asa a).effects.any fun e => e.isWrite) =
      (!asaEarlyReturn a && (asaS6 a).backup_successful) := by
  rw [asa_effects_eq]
  split <;>
    simp_all [List.any_append, probeEffects_any_write, httpEffects_any_write,
      sshEffects_any_write, writeEffects_any_write]

/-! ### Report lemmas -/

theorem writeRows_eq (fieldnames : List String)
    (l : List (String × DeviceResult)) (hfit : rowsFit fieldnames l = true) :
    writeRows fieldnames l = some (l.filterMap rowOfResult) := by
  induction l with
  | nil => rfl
  | cons hd tl ih =>
    obtain ⟨hname, hres⟩ := hd
    cases hres with
    | nonDict d =>
      have htl : rowsFit fieldnames tl = true := by
        simpa [rowsFit] using hfit
      simp [writeRows, rowOfResult, ih htl]
    | dict its =>
      rw [rowsFit, List.all_cons, Bool.and_eq_true] at hfit
      have hhd : ((rowOf its).all fun kv => fieldnames.contains kv.1) = true :=
        hfit.1
      have htl : rowsFit fieldnames tl = true := hfit.2
      simp only [writeRows]
      rw [if_pos hhd, ih htl]
      simp [rowOfResult]

/-! ## Claim theorems -/

/-- C1: against the claim that the HTTP persist step judges the persist
response's own text, the code at stockpile_cisco.py line 183 looks for the
rejection substring in the *read-config* response.  Concretely: the `write
mem` response itself reports HTTP success but carries "Command Authorization
Failed", the read-config response is clean, and the run nevertheless ends with
`save_config_successful = true`. -/
theorem claim_C1_code_eval :
    c1AsaInput.httpWrMemResponse.ok = true ∧
    isRejection c1AsaInput.httpWrMemResponse.text = true ∧
    isRejection c1AsaInput.httpBackupResponse.text = false ∧
    (stockpile_cisco_asa c1AsaInput).info.save_config_successful = true := by
  refine ⟨rfl, by decide, by decide, by decide⟩

/-- C2 counterexample: a transport call that succeeds but returns the empty
string still sets `backup_successful = true`, contradicting the claim that an
empty retrieved configuration must leave it false. -/
theorem claim_C2_counterexample :
    c2GenInput.backupResponse.failed = false ∧
    c2GenInput.backupResponse.result = "" ∧
    (stockpile_cisco_generic c2GenInput).info.backup_successful = true := by
  refine ⟨rfl, rfl, by decide⟩

/-- C2 amended: in both procedures `backup_successful` is true iff the
respective transport call reported success and its text does not contain the
rejection substring — non-emptiness of the retrieved text is not required. -/
theorem claim_C2_amended :
    (∀ g : GenericInputs,
      (stockpile_cisco_generic g).info.backup_successful =
        (g.sshPingOk && genericBackupOk g)) ∧
    (∀ a : AsaInputs,
      (stockpile_cisco_asa a).info.backup_successful =
        (asaHttpSuccess a || asaSshSuccess a)) := by
  constructor
  · exact generic_backup_eq
  · intro a
    rw [asa_info_eq, asaS6_eq]

/-- C3: when the HTTP read-config attempt succeeds no SSH command is executed
and the outcome has `ssh_used = false`; and in any outcome of either
procedure with `backup_successful = true`, `http_used` and `ssh_used` are
never both true. -/
theorem claim_C3 :
    (∀ a : AsaInputs, asaHttpSuccess a = true →
      ((stockpile_cisco_asa a).effects.any fun e => e.isSsh) = false ∧
      (stockpile_cisco_asa a).info.ssh_used = false) ∧
    (∀ a : AsaInputs, (stockpile_cisco_asa a).info.backup_successful = true →
      ((stockpile_cisco_asa a).info.http_used &&
        (stockpile_cisco_asa a).info.ssh_used) = false) ∧
    (∀ g : GenericInputs,
      (stockpile_cisco_generic g).info.backup_successful = true →
      ((stockpile_cisco_generic g).info.http_used &&
        (stockpile_cisco_generic g).info.ssh_used) = false) := by
  refine ⟨fun a hs => ⟨?_, ?_⟩, fun a _ => ?_, fun g _ => ?_⟩
  · rw [asa_any_ssh, asaSshTaken_eq]
    simp [hs]
  · rw [asa_info_eq, asaS6_eq]
    show asaSshSuccess a = false
    simp [asaSshSuccess, hs]
  · rw [asa_info_eq, asaS6_eq]
    show (asaHttpSuccess a && asaSshSuccess a) = false
    cases hs : asaHttpSuccess a <;> simp [asaSshSuccess, hs]
  · rw [generic_info_eq]
    cases hping : g.sshPingOk <;> simp [hping, genS3_eq, genS1_eq, genericInit]

/-- Witness for C3 at concrete inputs: an ASA device whose HTTP read succeeds
(SSH would also have worked but is never touched), and successful outcomes of
both procedures for the mutual-exclusion part. -/
theorem claim_C3_witness :
    (asaHttpSuccess c3AsaInput = true ∧
      ((stockpile_cisco_asa c3AsaInput).effects.any fun e => e.isSsh) = false ∧
      (stockpile_cisco_asa c3AsaInput).info.ssh_used = false) ∧
    ((stockpile_cisco_asa c3AsaInput).info.backup_successful = true ∧
      ((stockpile_cisco_asa c3AsaInput).info.http_used &&
        (stockpile_cisco_asa c3AsaInput).info.ssh_used) = false) ∧
    ((stockpile_cisco_generic c3GenInput).info.backup_successful = true ∧
      ((stockpile_cisco_generic c3GenInput).info.http_used &&
        (stockpile_cisco_generic c3GenInput).info.ssh_used) = false) :=
  ⟨⟨by decide, claim_C3.1 c3AsaInput (by decide)⟩,
   ⟨by decide, claim_C3.2.1 c3AsaInput (by decide)⟩,
   ⟨by decide, claim_C3.2.2 c3GenInput (by decide)⟩⟩

/-- C4: when neither the HTTP port check nor the SSH port check succeeds, the
ASA procedure returns (it does not raise — the model is a total function) a
failed outcome with all transport flags false and requests no file write. -/
theorem claim_C4 (a : AsaInputs) (h1 : asaHttpCheckOk a = false)
    (h2 : a.sshPingOk = false) :
    (stockpile_cisco_asa a).failed = true ∧
    (stockpile_cisco_asa a).info.backup_successful = false ∧
    (stockpile_cisco_asa a).info.http_used = false ∧
    (stockpile_cisco_asa a).info.ssh_used = false ∧
    ((stockpile_cisco_asa a).effects.any fun e => e.isWrite) = false := by
  have hb : (asaS6 a).backup_successful = false := by
    rw [asaS6_eq]
    show (asaHttpSuccess a || asaSshSuccess a) = false
    simp [asaHttpSuccess, asaSshSuccess, h1, h2]
  refine ⟨?_, ?_, ?_, ?_, ?_⟩
  · rw [asa_failed_eq, hb]
    rfl
  · rw [asa_info_eq]
    exact hb
  · rw [asa_info_eq, asaS6_eq]
    show asaHttpSuccess a = false
    simp [asaHttpSuccess, h1]
  · rw [asa_info_eq, asaS6_eq]
    show asaSshSuccess a = false
    simp [asaSshSuccess, h2]
  · rw [asa_any_write, hb]
    simp

/-- Witness for C4: an ASA device with HTTP management off and both probes
failing. -/
theorem claim_C4_witness :
    asaHttpCheckOk c4AsaInput = false ∧ c4AsaInput.sshPingOk = false ∧
    ((stockpile_cisco_asa c4AsaInput).failed = true ∧
      (stockpile_cisco_asa c4AsaInput).info.backup_successful = false ∧
      (stockpile_cisco_asa c4AsaInput).info.http_used = false ∧
      (stockpile_cisco_asa c4AsaInput).info.ssh_used = false ∧
      ((stockpile_cisco_asa c4AsaInput).effects.any fun e => e.isWrite) =
        false) :=
  ⟨by decide, rfl, claim_C4 c4AsaInput (by decide) rfl⟩

/-- C7: with HTTP management enabled and a SOCKS proxy configured, the HTTP
port probe is skipped and `http_port_check_ok` is assumed true; in general the
probe is performed exactly when HTTP management is enabled and no proxy is
configured. -/
theorem claim_C7 (a : AsaInputs) :
    (a.http_management = true → a.proxiesConfigured = true →
      (stockpile_cisco_asa a).info.http_port_check_ok = true ∧
      ((stockpile_cisco_asa a).effects.any fun e => e.isProbeHttp) = false) ∧
    ((stockpile_cisco_asa a).effects.any fun e => e.isProbeHttp) =
      (a.http_management && !a.proxiesConfigured) := by
  refine ⟨fun hm hp => ⟨?_, ?_⟩, asa_any_probeHttp a⟩
  · rw [asa_info_eq, asaS6_eq]
    show asaHttpCheckOk a = true
    simp [asaHttpCheckOk, hm, hp]
  · rw [asa_any_probeHttp, hm, hp]
    rfl

/-- Witness for C7: a proxied, HTTP-managed ASA device. -/
theorem claim_C7_witness :
    c7AsaInput.http_management = true ∧ c7AsaInput.proxiesConfigured = true ∧
    ((stockpile_cisco_asa c7AsaInput).info.http_port_check_ok = true ∧
      ((stockpile_cisco_asa c7AsaInput).effects.any fun e => e.isProbeHttp) =
        false) :=
  ⟨rfl, rfl, (claim_C7 c7AsaInput).1 rfl rfl⟩

/-- C5: on a fully successful generic run the file is written with the
retrieved text, but `last_successful_backup` — which the claim says is set to
the current time — is left `none`: no statement in `stockpile_cisco.py` ever
assigns it (unlike the older `backup_cisco.py` line 160, which does). -/
theorem claim_C5_code_eval :
    (stockpile_cisco_generic c5GenInput).info.backup_successful = true ∧
    ((stockpile_cisco_generic c5GenInput).effects.contains
      (Effect.writeFile "R1.txt" "hostname R1")) = true ∧
    (stockpile_cisco_generic c5GenInput).info.last_successful_backup = none := by
  refine ⟨by decide, by decide, by decide⟩

/-- C9: along every run of either procedure the six boolean outcome fields
are monotone — a flag once set true is never reset to false by a later
mutation point. -/
theorem claim_C9 :
    (∀ g : GenericInputs, List.Chain' boolMono (genericTrace g)) ∧
    (∀ a : AsaInputs, List.Chain' boolMono (asaTrace a)) := by
  constructor
  · intro g
    have m01 : boolMono (genericInit g) (genS1 g) := by
      simp [boolMono, genS1_eq, genericInit]
    have m12 : boolMono (genS1 g) (genS2 g) := by
      simp [boolMono, genS1_eq, genS2_eq, genericInit]
    have m23 : boolMono (genS2 g) (genS3 g) := by
      simp [boolMono, genS2_eq, genS3_eq, genericInit]
    unfold genericTrace
    split
    · exact List.chain'_cons.mpr ⟨m01, List.chain'_singleton _⟩
    · exact List.chain'_cons.mpr ⟨m01, List.chain'_cons.mpr ⟨m12,
        List.chain'_cons.mpr ⟨m23, List.chain'_singleton _⟩⟩⟩
  · intro a
    have m01 : boolMono (asaInit a) (asaS1 a) := by
      simp [boolMono, asaS1_eq, asaInit]
    have m12 : boolMono (asaS1 a) (asaS2 a) := by
      simp [boolMono, asaS1_eq, asaS2_eq, asaInit]
    have m23 : boolMono (asaS2 a) (asaS3 a) := by
      simp [boolMono, asaS2_eq, asaS3_eq, asaInit]
    have m34 : boolMono (asaS3 a) (asaS4 a) := by
      simp [boolMono, asaS3_eq, asaS4_eq, asaInit]
    have m45 : boolMono (asaS4 a) (asaS5 a) := by
      simp [boolMono, asaS4_eq, asaS5_eq, asaInit]
      exact fun h => Or.inl h
    have m56 : boolMono (asaS5 a) (asaS6 a) := by
      simp [boolMono, asaS5_eq, asaS6_eq, asaInit]
      exact fun h => Or.inl h
    unfold asaTrace
    split
    · exact List.chain'_cons.mpr ⟨m01, List.chain'_cons.mpr ⟨m12,
        List.chain'_singleton _⟩⟩
    · exact List.chain'_cons.mpr ⟨m01, List.chain'_cons.mpr ⟨m12,
        List.chain'_cons.mpr ⟨m23, List.chain'_cons.mpr ⟨m34,
          List.chain'_cons.mpr ⟨m45, List.chain'_cons.mpr ⟨m56,
            List.chain'_singleton _⟩⟩⟩⟩⟩⟩

/-- C10: two `StockpileResults` constructed without an explicit
`last_backup_attempt` share the same timestamp — the default was evaluated
once at class-definition time (`clk`) and does not depend on the construction
times `t1`, `t2`. -/
theorem claim_C10 (clk t1 t2 n1 i1 h1 n2 i2 h2 : String) :
    (StockpileResults.make clk t1 n1 i1 h1 none).last_backup_attempt =
      (StockpileResults.make clk t2 n2 i2 h2 none).last_backup_attempt ∧
    (StockpileResults.make clk t1 n1 i1 h1 none).last_backup_attempt = clk :=
  ⟨rfl, rfl⟩

/-- C6 counterexample: when the first device's result (in insertion order) is
not a dict — e.g. a captured exception — `task_completed` raises (modelled by
`none`) instead of skipping that device, even though a later dict-shaped
outcome exists; no row is written for anybody, refuting "writes exactly one
row per device whose result is a dict-shaped outcome". -/
theorem claim_C6_counterexample :
    (c6Aggregate.map fun hr => hr.2.isDict) = [false, true] ∧
    task_completed c6Aggregate = none := by
  refine ⟨by decide, by decide⟩

/-- C6 amended: the column set is derived from the *first* device's outcome
(successful or not; the writer raises when the aggregate is empty or that
first outcome is not a dict); given that, and that every dict-shaped result's
remaining keys fit the derived columns (otherwise `DictWriter` raises),
exactly one row is written per dict-shaped result — failed devices included,
non-dict results skipped — and `device_config` appears neither among the
columns nor in any row. -/
theorem claim_C6_amended (h : String) (items : List (String × String))
    (rest : List (String × DeviceResult))
    (hfit : rowsFit (fieldnamesOf items)
      ((h, DeviceResult.dict items) :: rest) = true) :
    task_completed ((h, DeviceResult.dict items) :: rest) =
      some (fieldnamesOf items,
        ((h, DeviceResult.dict items) :: rest).filterMap rowOfResult) ∧
    "device_config" ∉ fieldnamesOf items ∧
    ∀ its kv, kv ∈ rowOf its → kv.1 ≠ "device_config" := by
  refine ⟨?_, ?_, ?_⟩
  · have hstep : task_completed ((h, DeviceResult.dict items) :: rest) =
        (writeRows (fieldnamesOf items)
          ((h, DeviceResult.dict items) :: rest)).map
          (fun rows => (fieldnamesOf items, rows)) := rfl
    rw [hstep, writeRows_eq _ _ hfit]
    rfl
  · simp [fieldnamesOf]
  · intro its kv hkv
    rw [rowOf, List.mem_filter] at hkv
    simpa using hkv.2

/-- Witness for C6 at a concrete aggregate whose first result is dict-shaped:
three devices, the second an exception value, the third a failed dict row. -/
theorem claim_C6_witness :
    rowsFit (fieldnamesOf [("ip", "192.0.2.7"), ("backup_successful", "True"),
        ("device_config", "hostname fw1")]) c6GoodAggregate = true ∧
    task_completed c6GoodAggregate =
      some (["ip", "backup_successful"],
        [[("ip", "192.0.2.7"), ("backup_successful", "True")],
         [("ip", "192.0.2.8"), ("backup_successful", "False")]]) := by
  refine ⟨by decide, ?_⟩
  have happ := (claim_C6_amended "fw1"
    [("ip", "192.0.2.7"), ("backup_successful", "True"),
     ("device_config", "hostname fw1")]
    [("fw2", DeviceResult.nonDict "ConnectionException"),
     ("fw3", DeviceResult.dict [("ip", "192.0.2.8"),
        ("backup_successful", "False"), ("device_config", "")])]
    (by decide)).1
  rw [show task_completed c6GoodAggregate =
      some (["ip", "backup_successful"],
        [[("ip", "192.0.2.7"), ("backup_successful", "True")],
         [("ip", "192.0.2.8"), ("backup_successful", "False")]]) from happ]

/-- C8: for a credential file reached with `credential_prompt` off — a
2-entry decoded payload yields `(user, password, enable = password)`; a
3-entry payload yields `(user, password, enable)`; any other entry count
raises a format error; and a file not owned by the invoking user, or with any
group/other permission digit set, raises a permission error with the file
contents never read (the second component of the result records whether
`read_text` ran). -/
theorem claim_C8 :
    (∀ env user f a b u p, f.isFile = true → f.owner = user →
      f.permGroup = 0 → f.permOther = 0 → f.entries = [a, b] →
      afterFirstColon a = some u → afterFirstColon b = some p →
      gather_credentials env false (some f) user =
        (.ok (some u, some p, some p), true)) ∧
    (∀ env user f a b c u p e, f.isFile = true → f.owner = user →
      f.permGroup = 0 → f.permOther = 0 → f.entries = [a, b, c] →
      afterFirstColon a = some u → afterFirstColon b = some p →
      afterFirstColon c = some e →
      gather_credentials env false (some f) user =
        (.ok (some u, some p, some e), true)) ∧
    (∀ env user f, f.isFile = true → f.owner = user → f.permGroup = 0 →
      f.permOther = 0 → f.entries.length ≠ 2 → f.entries.length ≠ 3 →
      gather_credentials env false (some f) user =
        (.error .fileFormat, true)) ∧
    (∀ env user f, f.isFile = true → f.owner ≠ user →
      gather_credentials env false (some f) user =
        (.error .fileNotOwned, false)) ∧
    (∀ env user f, f.isFile = true → f.owner = user →
      (f.permGroup ≠ 0 ∨ f.permOther ≠ 0) →
      gather_credentials env false (some f) user =
        (.error .filePermissions, false)) := by
  refine ⟨?_, ?_, ?_, ?_, ?_⟩
  · intro env user f a b u p hf ho hg hp hE hu hpw
    simp [gather_credentials, hf, ho, hg, hp, hE, hu, hpw]
  · intro env user f a b c u p e hf ho hg hp hE hu hpw he
    simp [gather_credentials, hf, ho, hg, hp, hE, hu, hpw, he]
  · intro env user f hf ho hg hp h2 h3
    rcases hE : f.entries with _ | ⟨x, _ | ⟨y, _ | ⟨z, rest⟩⟩⟩ <;>
      simp_all [gather_credentials]
  · intro env user f hf ho
    simp [gather_credentials, hf, ho]
  · intro env user f hf ho hperm
    rcases hperm with hg | hp
    · simp [gather_credentials, hf, ho, hg]
    · simp [gather_credentials, hf, ho, hp]

/-- Witness for C8 at concrete files: a 2-entry file, a 3-entry file, a
1-entry file, a file owned by root, and a group-readable file, all probed for
the invoking user "backup". -/
theorem claim_C8_witness :
    gather_credentials c8Env false (some c8File2) "backup" =
      (.ok (some "test_user", some "test_pw", some "test_pw"), true) ∧
    gather_credentials c8Env false (some c8File3) "backup" =
      (.ok (some "test_user", some "test_pw", some "test_en"), true) ∧
    gather_credentials c8Env false (some c8File1) "backup" =
      (.error .fileFormat, true) ∧
    gather_credentials c8Env false (some c8FileWrongOwner) "backup" =
      (.error .fileNotOwned, false) ∧
    gather_credentials c8Env false (some c8FileLoosePerms) "backup" =
      (.error .filePermissions, false) :=
  ⟨claim_C8.1 c8Env "backup" c8File2 _ _ _ _ rfl rfl rfl rfl rfl rfl rfl,
   claim_C8.2.1 c8Env "backup" c8File3 _ _ _ _ _ _ rfl rfl rfl rfl rfl rfl rfl
     rfl,
   claim_C8.2.2.1 c8Env "backup" c8File1 rfl rfl rfl rfl (by decide)
     (by decide),
   claim_C8.2.2.2.1 c8Env "backup" c8FileWrongOwner rfl (by decide),
   claim_C8.2.2.2.2 c8Env "backup" c8FileLoosePerms rfl rfl
     (Or.inl (by decide))⟩

end Stockpiler
